import Mathlib

/-!
# Verification of the note-tweet-connector duplicate-suppression core

Shallow embedding of the Go sources of `Soli0222/note-tweet-connector`:
the text normalizer and content tracker (`handler/counttracker.go`, the
`internal/tracker` package), and the two relay handlers
(`internal/handler/note2tweet.go`, `internal/handler/tweet2note.go`).

Text is modelled as `List Char` (one element per Unicode code point, as a
Go `[]rune`); Go byte-level operations go through an explicit UTF-8
encoder.  The SHA-256 + hex encoding that both tracker variants apply to
the normalized text is a fixed injective-in-practice digest used only as
an opaque map key, so the comparison key is modelled as the digest
pre-image (the normalized byte/char string): equal pre-images give equal
digests, which is the only property the code relies on.
-/

namespace NoteTweet

/-- ASCII lower-casing of one character, the `A`-`Z` fragment of Go's
`unicode.ToLower`.  (Go's simple case mapping extends this table to the
rest of Unicode; every cased character the claims exercise is ASCII.) -/
def goToLower (c : Char) : Char :=
  if 65 ≤ c.toNat ∧ c.toNat ≤ 90 then Char.ofNat (c.toNat + 32) else c

/-- UTF-8 encoding of one code point, as Go lays out a `rune` in a
`string` (1 to 4 bytes). -/
def utf8Char (c : Char) : List Nat :=
  let n := c.toNat
  if n < 128 then [n]
  else if n < 2048 then [192 + n / 64, 128 + n % 64]
  else if n < 65536 then [224 + n / 4096, 128 + (n / 64) % 64, 128 + n % 64]
  else [240 + n / 262144, 128 + (n / 4096) % 64, 128 + (n / 64) % 64, 128 + n % 64]

/-- UTF-8 byte string of a text; `(utf8Bytes s).length` is Go's `len(s)`. -/
def utf8Bytes (l : List Char) : List Nat :=
  (l.map utf8Char).flatten

/-- Character class `\s` of Go's `regexp` package: `[\t\n\f\r ]`. -/
def isRegexSpace (c : Char) : Bool :=
  [9, 10, 12, 13, 32].contains c.toNat

/-- Go's `unicode.IsSpace` (White_Space property). -/
def isGoSpace (c : Char) : Bool :=
  [9, 10, 11, 12, 13, 32, 133, 160, 5760,
   8192, 8193, 8194, 8195, 8196, 8197, 8198, 8199, 8200, 8201, 8202,
   8232, 8233, 8239, 8287, 12288].contains c.toNat

/-- `strings.ReplaceAll(s, "\n", " ")`. -/
def replaceNewlines (l : List Char) : List Char :=
  l.map (fun c => if c = '\n' then ' ' else c)

/-- `strings.TrimSpace`: drop leading and trailing `unicode.IsSpace` runs. -/
def trimSpace (l : List Char) : List Char :=
  ((l.dropWhile isGoSpace).reverse.dropWhile isGoSpace).reverse

/-- Length of the match of the regexp `https?://[^\s]+` anchored at the
head of `l`, if any (scheme prefix plus a maximal non-empty run of
non-`\s` characters). -/
def urlMatch (l : List Char) : Option Nat :=
  if (("http://").toList).isPrefixOf l then
    let run := (l.drop 7).takeWhile (fun c => !isRegexSpace c)
    if run.isEmpty then none else some (7 + run.length)
  else if (("https://").toList).isPrefixOf l then
    let run := (l.drop 8).takeWhile (fun c => !isRegexSpace c)
    if run.isEmpty then none else some (8 + run.length)
  else none

/-- Worker for `stripURLs`; the fuel argument only bounds the recursion
and never runs out when it starts at the length of the list (each step
consumes at least one character). -/
def stripURLsAux : Nat → List Char → List Char
  | 0, l => l
  | _ + 1, [] => []
  | fuel + 1, c :: rest =>
    match urlMatch (c :: rest) with
    | some n => stripURLsAux fuel (rest.drop (n - 1))
    | none => c :: stripURLsAux fuel rest

/-- `urlPattern.ReplaceAllString(s, "")` with
`urlPattern = https?://[^\s]+`: delete every leftmost-first,
non-overlapping match. -/
def stripURLs (l : List Char) : List Char :=
  stripURLsAux l.length l

/-- `strings.Fields`: the whitespace-separated words of `l`, with no
empty words. -/
def fields (l : List Char) : List (List Char) :=
  (l.foldr
    (fun c acc =>
      if isGoSpace c then [] :: acc
      else
        match acc with
        | [] => [[c]]
        | w :: ws => (c :: w) :: ws)
    []).filter (fun w => !w.isEmpty)

/-- The normalization pipeline shared verbatim by both tracker variants
(`computeHash` in `handler/counttracker.go` and in `internal/tracker`),
up to but not including truncation:
lowercase, newlines to spaces, trim, strip URLs, collapse whitespace
runs to single spaces (`strings.Join(strings.Fields(s), " ")`). -/
def normalizeText (content : List Char) : List Char :=
  let n1 := content.map goToLower
  let n2 := replaceNewlines n1
  let n3 := trimSpace n2
  let n4 := stripURLs n3
  List.intercalate [' '] (fields n4)

/-- `maxContentLength` in both tracker variants. -/
def maxContentLength : Nat := 280

/-- `computeHash` of `handler/counttracker.go`: normalize, then truncate
the string at 280 **bytes** (Go `len` / slicing on a `string` count
bytes), then SHA-256 + hex.  The digest is modelled by its pre-image
(the truncated byte string), see the file header. -/
def computeHash (content : List Char) : List Nat :=
  let normalized := utf8Bytes (normalizeText content)
  if maxContentLength < normalized.length then normalized.take maxContentLength
  else normalized

/-- Modelled from the spec: `truncateString` of the `internal/tracker`
package, whose source file is absent from the repository snapshot (only
its tests `TestTruncateString` and callers are present).  Spec section 4.1
step 5: truncate to a maximum length measured in code points, never
splitting a multi-byte sequence. -/
def truncateString (s : List Char) (maxRunes : Nat) : List Char :=
  s.take maxRunes

/-- Modelled from the spec: the comparison key (`Normalize(text) ->
ComparisonKey`, spec section 4.1) of the `internal/tracker` package,
whose source file is absent from the repository snapshot.  Normalize
(steps 1-4, shared with the in-repo legacy variant), then truncate to
280 code points, then digest; the digest is modelled by its pre-image. -/
def Normalize (content : List Char) : List Char :=
  truncateString (normalizeText content) maxContentLength

/-! ## ContentTracker (`internal/tracker`, spec-modelled)

The live tracker's source file is absent from the repository snapshot;
only its test file and its callers are present.  Modelled from the spec
(sections 3 and 4.2): a set of comparison keys.  Entry timestamps and the
periodic TTL sweep are out of scope of the claims settled here and are
omitted; no claim below is about expiry. -/

/-- The set of marked fingerprints, as the list of keys inserted so far. -/
abbrev TrackerState := List (List Char)

/-- Modelled from the spec: `MarkProcessedIfNotExists` of the
`internal/tracker` package (atomic check-and-mark, spec section 4.2): if
the key of `content` is absent, insert it and report `true` (new);
otherwise leave the state unchanged and report `false`. -/
def MarkProcessedIfNotExists (content : List Char) (st : TrackerState) :
    Bool × TrackerState :=
  let key := Normalize content
  if key ∈ st then (false, st) else (true, key :: st)

/-- A concurrent execution of atomic `MarkProcessedIfNotExists` calls is
some interleaving of its indivisible steps; `runCalls` runs one such
linearization (the calls, in the order they took effect). -/
def runCalls : List (List Char) → TrackerState → List Bool × TrackerState
  | [], st => ([], st)
  | t :: ts, st =>
    let r := MarkProcessedIfNotExists t st
    let rest := runCalls ts r.2
    (r.1 :: rest.1, rest.2)

/-! ## Inbound payloads and relay handlers (`internal/handler`) -/

/-- `user` object of an embedded renote. -/
structure RenoteUser where
  host : List Char
  username : List Char
deriving DecidableEq

/-- `renote` object of a note payload. -/
structure RenoteData where
  id : List Char
  uri : List Char
  text : List Char
  user : RenoteUser
deriving DecidableEq

/-- One entry of the note's `files` array.  In Go the array element is an
untyped JSON object; the handler reads its `"type"` and `"url"` string
fields, which is all the claims exercise. -/
structure NoteFile where
  ftype : List Char
  url : List Char
deriving DecidableEq

/-- `body.note` of a Misskey webhook payload (`payloadNoteData`). -/
structure NoteData where
  id : List Char
  visibility : List Char
  localOnly : Bool
  files : List NoteFile
  cw : List Char
  text : List Char
  renote : RenoteData
deriving DecidableEq

/-- `payloadNoteData`: the decoded note payload. -/
structure NotePayload where
  server : List Char
  note : NoteData
deriving DecidableEq

/-- `payloadTweetData`: the decoded tweet payload (`body.tweet`). -/
structure TweetPayload where
  text : List Char
  url : List Char
deriving DecidableEq

/-- Configuration read from the environment by the handlers. -/
structure Env where
  misskeyHost : List Char
  misskeyToken : List Char
deriving DecidableEq

/-- `rtAtPattern.MatchString`: the regexp `^RT\s*@`. -/
def rtAtMatch (l : List Char) : Bool :=
  match l with
  | 'R' :: 'T' :: rest =>
    match rest.dropWhile isRegexSpace with
    | '@' :: _ => true
    | _ => false
  | _ => false

/-- `rnAtPattern.MatchString`: the regexp `^RN\s*\[at\]`. -/
def rnAtMatch (l : List Char) : Bool :=
  match l with
  | 'R' :: 'N' :: rest =>
    (("[at]").toList).isPrefixOf (rest.dropWhile isRegexSpace)
  | _ => false

/-- The masking line of the content-warning branch:
`strings.Repeat("○", len(payload.Body.Note.Text))` — Go's `len` on a
string counts UTF-8 bytes, so one glyph per byte of the body text. -/
def cwCircles (text : List Char) : List Char :=
  List.replicate (utf8Bytes text).length '○'

/-- The note permalink `payload.Server + "/notes/" + payload.Body.Note.ID`. -/
def noteURI (p : NotePayload) : List Char :=
  p.server ++ ("/notes/").toList ++ p.note.id

/-- The renote reshare marker synthesized by `Note2TweetHandler`
(lines 62-66): `"RN [at]" + username + "[at]" + host + "\n\n" + text +
"\n\n" + uri`, the host falling back to `MISSKEY_HOST` when unset. -/
def renoteMarker (env : Env) (p : NotePayload) : List Char :=
  let renoteHost :=
    if p.note.renote.user.host = [] then env.misskeyHost
    else p.note.renote.user.host
  ("RN [at]").toList ++ p.note.renote.user.username ++ ("[at]").toList ++
    renoteHost ++ ('\n' :: '\n' :: p.note.renote.text) ++
    ('\n' :: '\n' :: p.note.renote.uri)

/-- The content-warning replacement text of `Note2TweetHandler` lines
55-58: `cw + "\n" + circles + "\n" + noteURI`. -/
def cwDerived (p : NotePayload) : List Char :=
  p.note.cw ++ ('\n' :: (cwCircles p.note.text ++ ('\n' :: noteURI p)))

/-- `noteText` after the content-warning step (lines 52-58). -/
def baseNoteText (p : NotePayload) : List Char :=
  if p.note.cw ≠ [] then cwDerived p else p.note.text

/-- The canonical text derived by `Note2TweetHandler` lines 52-68: start
from the body text; a non-empty CW replaces it by CW + masking line +
permalink; if the result is `""` or `"null"` and the files list is
empty, it becomes the renote reshare marker. -/
def deriveNoteText (env : Env) (p : NotePayload) : List Char :=
  if (baseNoteText p = [] ∨ baseNoteText p = ("null").toList) ∧
      p.note.files = [] then
    renoteMarker env p
  else baseNoteText p

/-- `strings.Contains(l, sub)`: some contiguous run of `l` is `sub`. -/
def containsSub (sub : List Char) : List Char → Bool
  | [] => sub.isEmpty
  | c :: rest => sub.isPrefixOf (c :: rest) || containsSub sub rest

/-- The image attachments kept by `Note2TweetHandler` lines 97-108: the
`url` of every file whose `type` contains `"image"`. -/
def imageFileURLs (files : List NoteFile) : List (List Char) :=
  (files.filter (fun f => containsSub (("image").toList) f.ftype)).map
    (fun f => f.url)

/-- An outbound call made by a handler. -/
inductive PostCall where
  | post (text : List Char)
  | postWithMedia (text : List Char) (urls : List (List Char))
  | createNote (host token text : List Char)
deriving DecidableEq

/-- Outcome of a handler run: whether a non-nil error was returned, the
tracker state left behind, and the outbound poster calls made.  The
downstream poster's outcome is an input (`postOk`), since the poster is
an external collaborator. -/
structure HandlerResult where
  isError : Bool
  tracker : TrackerState
  calls : List PostCall
deriving DecidableEq

/-- `Note2TweetHandler` (`internal/handler/note2tweet.go`), from the
point where the payload has been decoded: derive the canonical text,
skip on `^RT\s*@`, skip unless `visibility == "public"`, atomically
check-and-mark, then post (with media when image attachments exist);
a poster failure is returned as an error with the mark kept. -/
def Note2TweetHandler (env : Env) (p : NotePayload) (tr : TrackerState)
    (postOk : Bool) : HandlerResult :=
  if rtAtMatch (deriveNoteText env p) then ⟨false, tr, []⟩
  else if p.note.visibility ≠ ("public").toList then ⟨false, tr, []⟩
  else if (MarkProcessedIfNotExists (deriveNoteText env p) tr).1 = false then
    ⟨false, (MarkProcessedIfNotExists (deriveNoteText env p) tr).2, []⟩
  else
    ⟨!postOk, (MarkProcessedIfNotExists (deriveNoteText env p) tr).2,
      [if imageFileURLs p.note.files = [] then
        PostCall.post (deriveNoteText env p)
       else
        PostCall.postWithMedia (deriveNoteText env p)
          (imageFileURLs p.note.files)]⟩

/-- `Tweet2NoteHandler` lines 39-43: a native retweet (`^RT\s*@`) gets
the tweet's URL appended. -/
def expandTweetText (p : TweetPayload) : List Char :=
  if rtAtMatch p.text then p.text ++ ('\n' :: '\n' :: p.url) else p.text

/-- `Tweet2NoteHandler` (`internal/handler/tweet2note.go`), from the
point where the payload has been decoded: expand a native retweet, skip
on `^RN\s*\[at\]`, fail when `MISSKEY_HOST` or `MISSKEY_TOKEN` is empty,
atomically check-and-mark, then create the note; a poster failure is
returned as an error with the mark kept. -/
def Tweet2NoteHandler (env : Env) (p : TweetPayload) (tr : TrackerState)
    (postOk : Bool) : HandlerResult :=
  if rnAtMatch (expandTweetText p) then ⟨false, tr, []⟩
  else if env.misskeyHost = [] then ⟨true, tr, []⟩
  else if env.misskeyToken = [] then ⟨true, tr, []⟩
  else if (MarkProcessedIfNotExists (expandTweetText p) tr).1 = false then
    ⟨false, (MarkProcessedIfNotExists (expandTweetText p) tr).2, []⟩
  else
    ⟨!postOk, (MarkProcessedIfNotExists (expandTweetText p) tr).2,
      [PostCall.createNote env.misskeyHost env.misskeyToken
        (expandTweetText p)]⟩

/-! ## Helper lemmas -/

lemma utf8Bytes_append (a b : List Char) :
    utf8Bytes (a ++ b) = utf8Bytes a ++ utf8Bytes b := by
  simp [utf8Bytes]

lemma mark_of_mem (u : List Char) (st : TrackerState)
    (h : Normalize u ∈ st) : MarkProcessedIfNotExists u st = (false, st) := by
  simp [MarkProcessedIfNotExists, h]

lemma mark_of_not_mem (u : List Char) (st : TrackerState)
    (h : Normalize u ∉ st) :
    MarkProcessedIfNotExists u st = (true, Normalize u :: st) := by
  simp [MarkProcessedIfNotExists, h]

lemma runCalls_all_dup (k : List Char) :
    ∀ (texts : List (List Char)) (st : TrackerState),
      (∀ u ∈ texts, Normalize u = k) → k ∈ st →
      runCalls texts st = (List.replicate texts.length false, st) := by
  intro texts
  induction texts with
  | nil => intro st _ _; simp [runCalls]
  | cons u us ih =>
    intro st hall hk
    have hu : Normalize u = k := hall u (List.mem_cons_self u us)
    have hmark := mark_of_mem u st (hu ▸ hk)
    have hrest := ih st (fun v hv => hall v (List.mem_cons_of_mem u hv)) hk
    simp [runCalls, hmark, hrest, List.replicate_succ]

lemma count_replicate_false (n : Nat) :
    (List.replicate n false).count true = 0 ∧
    (List.replicate n false).count false = n := by
  induction n with
  | zero => simp
  | succ n ih => simp [List.replicate_succ, List.count_cons, ih.1, ih.2]

lemma deriveNoteText_renote (env : Env) (p : NotePayload)
    (hcw : p.note.cw = [])
    (ht : p.note.text = [] ∨ p.note.text = ("null").toList)
    (hf : p.note.files = []) :
    deriveNoteText env p = renoteMarker env p := by
  rcases ht with h | h <;> simp [deriveNoteText, baseNoteText, hcw, hf, h]

lemma renoteMarker_shape (env : Env) (p : NotePayload) :
    renoteMarker env p = 'R' :: 'N' :: ' ' :: '[' :: 'a' :: 't' :: ']' ::
      (p.note.renote.user.username ++ ("[at]").toList ++
        (if p.note.renote.user.host = [] then env.misskeyHost
         else p.note.renote.user.host) ++
        ('\n' :: '\n' :: p.note.renote.text) ++
        ('\n' :: '\n' :: p.note.renote.uri)) := by
  simp [renoteMarker]

lemma rnAtMatch_marker (env : Env) (p : NotePayload) :
    rnAtMatch (renoteMarker env p) = true := by
  rw [renoteMarker_shape]
  simp [rnAtMatch, List.dropWhile, isRegexSpace, List.isPrefixOf]

lemma rtAtMatch_marker (env : Env) (p : NotePayload) :
    rtAtMatch (renoteMarker env p) = false := by
  rw [renoteMarker_shape]; rfl

/-- The payload with its body text replaced (all other fields as in `p`). -/
def withText (p : NotePayload) (t : List Char) : NotePayload :=
  { p with note := { p.note with text := t } }

/-! ## Sample data for witnesses and counterexamples -/

/-- A populated renote, shaped like the `renote` object of the repo's
test payloads. -/
def sampleRenote : RenoteData :=
  ⟨("r1").toList, ("https://remote.example/notes/r1").toList,
   ("orig text").toList, ⟨("remote.example").toList, ("alice").toList⟩⟩

/-- A fully configured environment. -/
def sampleEnv : Env := ⟨("misskey.example").toList, ("token").toList⟩

/-- A followers-only note. -/
def followersNote : NotePayload :=
  ⟨("https://s.example").toList,
   ⟨("n1").toList, ("followers").toList, false, [], [], ("hi").toList,
    sampleRenote⟩⟩

/-- A plain public text note. -/
def publicNote : NotePayload :=
  ⟨("https://s.example").toList,
   ⟨("n2").toList, ("public").toList, false, [], [],
    ("c4 sample text").toList, sampleRenote⟩⟩

/-- A plain tweet. -/
def sampleTweet : TweetPayload :=
  ⟨("c4 tweet text").toList, ("https://t.example/1").toList⟩

/-- A pure renote: empty text, no CW, no files, populated renote. -/
def renoteNote : NotePayload :=
  ⟨("https://s.example").toList,
   ⟨("n3").toList, ("public").toList, false, [], [], [], sampleRenote⟩⟩

/-- A renote-shaped payload that additionally carries a content warning. -/
def cwRenoteNote : NotePayload :=
  ⟨("https://s.example").toList,
   ⟨("n4").toList, ("public").toList, false, [], ("x").toList, [],
    sampleRenote⟩⟩

/-- A content-warned note with an ASCII body. -/
def cwNote : NotePayload :=
  ⟨("https://s.example").toList,
   ⟨("n5").toList, ("public").toList, false, [], ("Spoiler Alert").toList,
    ("Spoiler content").toList, sampleRenote⟩⟩

/-- A content-warned note whose body is a single 3-byte character. -/
def cwJapaneseNote : NotePayload :=
  ⟨("s").toList,
   ⟨("1").toList, ("public").toList, false, [], ("w").toList,
    ("あ").toList, sampleRenote⟩⟩

/-- An environment with `MISSKEY_HOST` unset. -/
def missingHostEnv : Env := ⟨[], ("token").toList⟩

/-- A tweet carrying this relay's own reshare marker. -/
def rnTweet : TweetPayload :=
  ⟨("RN [at]alice hello").toList, ("https://t.example/2").toList⟩

/-- An image-only note that also carries a content warning. -/
def cwFileNote : NotePayload :=
  ⟨("s").toList,
   ⟨("1").toList, ("public").toList, false,
    [⟨("image/png").toList, ("https://e.example/i.png").toList⟩],
    ("x").toList, [], sampleRenote⟩⟩

/-- An image-only note: empty text, no CW, one image attachment. -/
def imageOnlyNote : NotePayload :=
  ⟨("s").toList,
   ⟨("2").toList, ("public").toList, false,
    [⟨("image/png").toList, ("https://e.example/i.png").toList⟩],
    [], [], sampleRenote⟩⟩

/-! ## Claims -/

/-- C1: on a fresh tracker, any concurrent execution (any linearization
of the atomic steps) of N ≥ 1 `MarkProcessedIfNotExists` calls whose
texts all normalize to the key of `t` yields exactly one `true` — the
first call in linearization order — and N−1 `false`; and after any call
with some text, a call with a text normalizing to the same key never
passes as new. -/
theorem C1_atomic_one_winner :
    (∀ (t : List Char) (texts : List (List Char)), texts ≠ [] →
      (∀ u ∈ texts, Normalize u = Normalize t) →
      (runCalls texts []).1 = true :: List.replicate (texts.length - 1) false ∧
      (runCalls texts []).1.count true = 1 ∧
      (runCalls texts []).1.count false = texts.length - 1) ∧
    (∀ (s u : List Char) (st : TrackerState), Normalize s = Normalize u →
      (MarkProcessedIfNotExists s (MarkProcessedIfNotExists u st).2).1 = false) := by
  constructor
  · intro t texts hne hall
    cases texts with
    | nil => exact absurd rfl hne
    | cons u us =>
      have hu : Normalize u = Normalize t :=
        hall u (List.mem_cons_self u us)
      have h1 : MarkProcessedIfNotExists u [] = (true, [Normalize u]) :=
        mark_of_not_mem u [] (by simp)
      have h2 : runCalls us [Normalize u] =
          (List.replicate us.length false, [Normalize u]) :=
        runCalls_all_dup (Normalize t) us [Normalize u]
          (fun v hv => hall v (List.mem_cons_of_mem u hv)) (by simp [hu])
      refine ⟨?_, ?_, ?_⟩ <;>
        simp [runCalls, h1, h2, List.count_cons,
          (count_replicate_false us.length).1,
          (count_replicate_false us.length).2]
  · intro s u st h
    by_cases hm : Normalize u ∈ st
    · rw [mark_of_mem u st hm]
      exact congrArg Prod.fst (mark_of_mem s st (h ▸ hm))
    · rw [mark_of_not_mem u st hm]
      exact congrArg Prod.fst
        (mark_of_mem s (Normalize u :: st) (by simp [h]))

/-- C1 witness: three concurrent calls whose texts normalize alike
(`"dup"`, `"DUP"`, `"dup "`) yield exactly one `true`; and `"DUP"` never
passes after `"dup"` has been marked. -/
theorem C1_witness :
    (runCalls [("dup").toList, ("DUP").toList, ("dup ").toList] []).1.count
      true = 1 ∧
    (MarkProcessedIfNotExists (("DUP").toList)
      (MarkProcessedIfNotExists (("dup").toList) []).2).1 = false := by
  refine ⟨(C1_atomic_one_winner.1 (("dup").toList)
    [("dup").toList, ("DUP").toList, ("dup ").toList] (by decide) ?_).2.1,
    C1_atomic_one_winner.2 (("DUP").toList) (("dup").toList) [] (by decide)⟩
  intro u hu
  rcases List.mem_cons.mp hu with rfl | hu
  · decide
  rcases List.mem_cons.mp hu with rfl | hu
  · decide
  rcases List.mem_cons.mp hu with rfl | hu
  · decide
  · exact absurd hu (List.not_mem_nil u)

/-- C2: a note whose visibility is not `"public"` is skipped without
error, with no poster invocation and the tracker left unchanged — so the
payload's canonical text is not marked. -/
theorem C2_visibility_gate (env : Env) (p : NotePayload) (tr : TrackerState)
    (postOk : Bool) (h : p.note.visibility ≠ ("public").toList) :
    Note2TweetHandler env p tr postOk = ⟨false, tr, []⟩ := by
  simp only [Note2TweetHandler]
  rw [if_pos h]
  exact ite_self _

/-- C2 witness: a followers-only note is skipped with no error, no
calls, and an unchanged (empty) tracker. -/
theorem C2_witness :
    followersNote.note.visibility ≠ (("public").toList) ∧
    Note2TweetHandler sampleEnv followersNote [] true = ⟨false, [], []⟩ :=
  ⟨by decide, C2_visibility_gate sampleEnv followersNote [] true (by decide)⟩

/-- C3: `computeHash` (the normalizer of `handler/counttracker.go`)
gives identical comparison keys to texts that agree after character-wise
lowercasing, and to the spec's variant examples — differing newline
style, collapsed whitespace runs, leading/trailing whitespace, and an
embedded `https://` URL all hash equal to `"hello world"`. -/
theorem C3_normalization_equiv :
    (∀ s t : List Char, s.map goToLower = t.map goToLower →
      computeHash s = computeHash t) ∧
    computeHash (("Hello World").toList) = computeHash (("hello world").toList) ∧
    computeHash (("hello\nworld").toList) = computeHash (("hello world").toList) ∧
    computeHash (("hello   world").toList) = computeHash (("hello world").toList) ∧
    computeHash (("  hello world  ").toList) = computeHash (("hello world").toList) ∧
    computeHash (("hello https://example.com world").toList) =
      computeHash (("hello world").toList) := by
  refine ⟨?_, by decide, by decide, by decide, by decide, by decide⟩
  intro s t h
  simp only [computeHash, normalizeText]
  rw [h]

/-- C3 witness: `"Mixed CASE"` and `"mIXED case"` agree after
lowercasing and hash equal. -/
theorem C3_witness :
    (("Mixed CASE").toList).map goToLower =
      (("mIXED case").toList).map goToLower ∧
    computeHash (("Mixed CASE").toList) = computeHash (("mIXED case").toList) :=
  ⟨by decide,
   C3_normalization_equiv.1 (("Mixed CASE").toList) (("mIXED case").toList)
     (by decide)⟩

/-- C4: in both relay directions, when a payload passes every skip check
(loop pattern, visibility resp. configuration, duplicate) and the
outbound poster fails, the handler returns the error and the payload's
fingerprint stays marked in the tracker — the dedup claim is not rolled
back. -/
theorem C4_no_rollback_on_poster_failure :
    (∀ (env : Env) (p : NotePayload) (tr : TrackerState),
      rtAtMatch (deriveNoteText env p) = false →
      p.note.visibility = ("public").toList →
      Normalize (deriveNoteText env p) ∉ tr →
      (Note2TweetHandler env p tr false).isError = true ∧
      Normalize (deriveNoteText env p) ∈ (Note2TweetHandler env p tr false).tracker) ∧
    (∀ (env : Env) (p : TweetPayload) (tr : TrackerState),
      rnAtMatch (expandTweetText p) = false →
      env.misskeyHost ≠ [] → env.misskeyToken ≠ [] →
      Normalize (expandTweetText p) ∉ tr →
      (Tweet2NoteHandler env p tr false).isError = true ∧
      Normalize (expandTweetText p) ∈ (Tweet2NoteHandler env p tr false).tracker) := by
  constructor
  · intro env p tr hrt hvis hnew
    have hmark := mark_of_not_mem (deriveNoteText env p) tr hnew
    simp [Note2TweetHandler, hrt, hvis, hmark]
  · intro env p tr hrn hhost htok hnew
    have hmark := mark_of_not_mem (expandTweetText p) tr hnew
    simp [Tweet2NoteHandler, hrn, hhost, htok, hmark]

/-- C4 witness: a fresh public note and a fresh tweet whose posters fail
both surface the error with the fingerprint left marked. -/
theorem C4_witness :
    ((Note2TweetHandler sampleEnv publicNote [] false).isError = true ∧
      Normalize (deriveNoteText sampleEnv publicNote) ∈
        (Note2TweetHandler sampleEnv publicNote [] false).tracker) ∧
    ((Tweet2NoteHandler sampleEnv sampleTweet [] false).isError = true ∧
      Normalize (expandTweetText sampleTweet) ∈
        (Tweet2NoteHandler sampleEnv sampleTweet [] false).tracker) :=
  ⟨C4_no_rollback_on_poster_failure.1 sampleEnv publicNote []
      (by decide) (by decide) (by decide),
   C4_no_rollback_on_poster_failure.2 sampleEnv sampleTweet []
      (by decide) (by decide) (by decide) (by decide)⟩

/-- C5 counterexample: a payload with empty text, an empty files list,
and a populated renote — but a non-empty content warning.  The CW branch
wins, so the derived text does not begin with the reshare marker,
refuting the claim as universally stated. -/
theorem C5_counterexample :
    cwRenoteNote.note.text = [] ∧ cwRenoteNote.note.files = [] ∧
    cwRenoteNote.note.renote.uri ≠ [] ∧
    (("RN [at]").toList).isPrefixOf
      (deriveNoteText sampleEnv cwRenoteNote) = false := by
  decide

/-- C5 (amended: requires the content-warning field to be empty, since a
non-empty CW takes precedence over the renote expansion): a note with
empty (or `"null"`) text, no files, and no CW derives a text beginning
with `"RN [at]"`, and feeding that exact text through
`Tweet2NoteHandler` yields the loop-pattern skip — nil result, no
note-creation call, tracker untouched. -/
theorem C5_loop_prevention_amended (env env2 : Env) (p : NotePayload)
    (tr : TrackerState) (postOk : Bool) (url : List Char)
    (hcw : p.note.cw = [])
    (ht : p.note.text = [] ∨ p.note.text = ("null").toList)
    (hf : p.note.files = []) :
    (("RN [at]").toList).isPrefixOf (deriveNoteText env p) = true ∧
    Tweet2NoteHandler env2 ⟨deriveNoteText env p, url⟩ tr postOk =
      ⟨false, tr, []⟩ := by
  have hd := deriveNoteText_renote env p hcw ht hf
  constructor
  · rw [hd, renoteMarker_shape]
    simp [List.isPrefixOf]
  · rw [hd]
    simp [Tweet2NoteHandler, expandTweetText, rtAtMatch_marker,
      rnAtMatch_marker]

/-- C5 witness: the pure renote payload derives a marker text that the
tweet→note direction skips. -/
theorem C5_witness :
    renoteNote.note.cw = [] ∧ renoteNote.note.text = [] ∧
    renoteNote.note.files = [] ∧
    (("RN [at]").toList).isPrefixOf
      (deriveNoteText sampleEnv renoteNote) = true ∧
    Tweet2NoteHandler sampleEnv ⟨deriveNoteText sampleEnv renoteNote, []⟩
      [] true = ⟨false, [], []⟩ :=
  ⟨by decide, by decide, by decide,
   (C5_loop_prevention_amended sampleEnv sampleEnv renoteNote [] true []
     (by decide) (Or.inl (by decide)) (by decide)).1,
   (C5_loop_prevention_amended sampleEnv sampleEnv renoteNote [] true []
     (by decide) (Or.inl (by decide)) (by decide)).2⟩

/-- C6 counterexample: a CW note whose body is the single character
`"あ"` (3 UTF-8 bytes) gets a masking line of three glyphs, not one —
`strings.Repeat("○", len(text))` counts bytes, refuting "one glyph per
code point". -/
theorem C6_counterexample :
    cwJapaneseNote.note.text.length = 1 ∧
    deriveNoteText sampleEnv cwJapaneseNote = ("w\n○○○\ns/notes/1").toList ∧
    deriveNoteText sampleEnv cwJapaneseNote ≠
      cwJapaneseNote.note.cw ++ ('\n' ::
        (List.replicate cwJapaneseNote.note.text.length '○' ++
          ('\n' :: noteURI cwJapaneseNote))) := by
  decide

/-- C6 (amended: one placeholder glyph per UTF-8 **byte** of the
original body text, which coincides with per-code-point only for ASCII
bodies): a non-empty CW makes the canonical text CW + newline + masking
line + newline + permalink. -/
theorem C6_cw_masking_amended (env : Env) (p : NotePayload)
    (hcw : p.note.cw ≠ []) :
    deriveNoteText env p =
      p.note.cw ++ ('\n' ::
        (List.replicate (utf8Bytes p.note.text).length '○' ++
          ('\n' :: (p.server ++ ("/notes/").toList ++ p.note.id)))) := by
  have hb : baseNoteText p = cwDerived p := by simp [baseNoteText, hcw]
  have h1 : cwDerived p ≠ [] := by simp [cwDerived]
  have h2 : cwDerived p ≠ ("null").toList := by
    intro h
    have hm : '\n' ∈ cwDerived p := by simp [cwDerived]
    rw [h] at hm
    exact absurd hm (by decide)
  have hcond : ¬((baseNoteText p = [] ∨ baseNoteText p = ("null").toList) ∧
      p.note.files = []) := by
    rw [hb]
    rintro ⟨h | h, _⟩
    · exact h1 h
    · exact h2 h
  simp only [deriveNoteText]
  rw [if_neg hcond, hb]
  simp [cwDerived, cwCircles, noteURI]

/-- C6 witness: the CW note's canonical text is CW + masking line (one
glyph per byte of its ASCII body) + permalink. -/
theorem C6_witness :
    cwNote.note.cw ≠ [] ∧
    deriveNoteText sampleEnv cwNote =
      cwNote.note.cw ++ ('\n' ::
        (List.replicate (utf8Bytes cwNote.note.text).length '○' ++
          ('\n' :: (cwNote.server ++ ("/notes/").toList ++ cwNote.note.id)))) :=
  ⟨by decide, C6_cw_masking_amended sampleEnv cwNote (by decide)⟩

/-- C7: the tracker's key is the normalized text truncated to at most
280 code points — the truncation result is a code-point-level prefix of
the normalized text, so its UTF-8 byte string is a prefix of the
original's and no multi-byte sequence is ever split; `truncateString`
truncates Japanese and emoji text by code point, as in the repo's
`TestTruncateString` vectors. -/
theorem C7_truncate_by_code_point :
    (∀ s : List Char,
      (Normalize s).length ≤ maxContentLength ∧
      normalizeText s =
        Normalize s ++ (normalizeText s).drop maxContentLength ∧
      utf8Bytes (normalizeText s) =
        utf8Bytes (Normalize s) ++
          utf8Bytes ((normalizeText s).drop maxContentLength)) ∧
    truncateString (("ラグトレイン").toList) 3 = (("ラグト").toList) ∧
    truncateString (("🎵🎶🎵🎶🎵").toList) 3 = (("🎵🎶🎵").toList) ∧
    truncateString (("hello world").toList) 5 = (("hello").toList) := by
  refine ⟨?_, by decide, by decide, by decide⟩
  intro s
  refine ⟨?_, ?_, ?_⟩
  · have h : Normalize s = (normalizeText s).take maxContentLength := rfl
    rw [h, List.length_take]
    exact Nat.min_le_left _ _
  · exact (List.take_append_drop maxContentLength (normalizeText s)).symm
  · conv_lhs =>
      rw [← List.take_append_drop maxContentLength (normalizeText s)]
    rw [utf8Bytes_append]
    rfl

/-- C8 counterexample: with `MISSKEY_HOST` unset, a tweet matching the
loop pattern `^RN\s*\[at\]` still returns nil (a skip), not an error —
the loop-pattern check runs before the configuration check, refuting the
claim for every tweet payload. -/
theorem C8_counterexample :
    missingHostEnv.misskeyHost = [] ∧
    Tweet2NoteHandler missingHostEnv rnTweet [] true = ⟨false, [], []⟩ := by
  decide

/-- C8 (amended: restricted to tweets not skipped by the loop-pattern
check, which runs first): with the destination host or token missing,
`Tweet2NoteHandler` returns a non-nil error, makes no note-creation
call, and leaves the tracker unchanged. -/
theorem C8_config_error_amended (env : Env) (p : TweetPayload)
    (tr : TrackerState) (postOk : Bool)
    (hrn : rnAtMatch (expandTweetText p) = false)
    (hcfg : env.misskeyHost = [] ∨ env.misskeyToken = []) :
    Tweet2NoteHandler env p tr postOk = ⟨true, tr, []⟩ := by
  rcases hcfg with hh | htk
  · simp [Tweet2NoteHandler, hrn, hh]
  · by_cases hh2 : env.misskeyHost = []
    · simp [Tweet2NoteHandler, hrn, hh2]
    · simp [Tweet2NoteHandler, hrn, hh2, htk]

/-- C8 witness: a plain tweet with the host unset yields an error with
no calls and an unchanged tracker. -/
theorem C8_witness :
    rnAtMatch (expandTweetText sampleTweet) = false ∧
    missingHostEnv.misskeyHost = [] ∧
    Tweet2NoteHandler missingHostEnv sampleTweet [] true = ⟨true, [], []⟩ :=
  ⟨by decide, by decide,
   C8_config_error_amended missingHostEnv sampleTweet [] true (by decide)
     (Or.inl (by decide))⟩

/-- C9 counterexample: with a non-empty content warning, a `"null"` body
is not treated identically to an empty body — the masking line gets one
glyph per byte of `"null"` (four) versus none — and the renote-expansion
branch is not triggered, refuting the claim as universally stated. -/
theorem C9_counterexample :
    cwRenoteNote.note.files = [] ∧ cwRenoteNote.note.cw ≠ [] ∧
    deriveNoteText sampleEnv (withText cwRenoteNote (("null").toList)) ≠
      deriveNoteText sampleEnv (withText cwRenoteNote []) ∧
    (("RN [at]").toList).isPrefixOf
      (deriveNoteText sampleEnv (withText cwRenoteNote (("null").toList)))
      = false := by
  decide

/-- C9 (amended: additionally requires the content-warning field to be
empty, since a non-empty CW replaces the body before the `"null"` test):
when the content warning is empty and the files list is empty, a body
text of the literal `"null"` is treated exactly like an empty body: the
derived text is the renote reshare marker, and the whole handler run is
identical to the empty-text run. -/
theorem C9_null_text_like_empty (env : Env) (p : NotePayload)
    (tr : TrackerState) (postOk : Bool)
    (hcw : p.note.cw = []) (hf : p.note.files = []) :
    deriveNoteText env (withText p (("null").toList)) = renoteMarker env p ∧
    Note2TweetHandler env (withText p (("null").toList)) tr postOk =
      Note2TweetHandler env (withText p []) tr postOk := by
  have hcw1 : (withText p (("null").toList)).note.cw = [] := by
    simp [withText, hcw]
  have hf1 : (withText p (("null").toList)).note.files = [] := by
    simp [withText, hf]
  have hcw2 : (withText p []).note.cw = [] := by simp [withText, hcw]
  have hf2 : (withText p []).note.files = [] := by simp [withText, hf]
  have h1 := deriveNoteText_renote env (withText p (("null").toList)) hcw1
    (Or.inr (by simp [withText])) hf1
  have h2 := deriveNoteText_renote env (withText p []) hcw2
    (Or.inl (by simp [withText])) hf2
  have hm1 : renoteMarker env (withText p (("null").toList)) =
      renoteMarker env p := by simp [withText, renoteMarker]
  have hm2 : renoteMarker env (withText p []) = renoteMarker env p := by
    simp [withText, renoteMarker]
  have hv1 : (withText p (("null").toList)).note.visibility =
      p.note.visibility := rfl
  have hv2 : (withText p []).note.visibility = p.note.visibility := rfl
  have hfl1 : (withText p (("null").toList)).note.files = p.note.files := rfl
  have hfl2 : (withText p []).note.files = p.note.files := rfl
  refine ⟨by rw [h1, hm1], ?_⟩
  simp only [Note2TweetHandler, h1, h2, hm1, hm2, hv1, hv2, hfl1, hfl2]

/-- C9 witness: on the pure renote payload, the `"null"`-text run equals
the empty-text run. -/
theorem C9_witness :
    renoteNote.note.cw = [] ∧ renoteNote.note.files = [] ∧
    Note2TweetHandler sampleEnv (withText renoteNote (("null").toList))
      [] true =
      Note2TweetHandler sampleEnv (withText renoteNote []) [] true :=
  ⟨by decide, by decide,
   (C9_null_text_like_empty sampleEnv renoteNote [] true (by decide)
     (by decide)).2⟩

/-- C10 counterexample: with a non-empty content warning, an empty-text
note with attachments derives the CW text, not the empty string, and its
dedup key is not the key of `""` — refuting the claim as universally
stated. -/
theorem C10_counterexample :
    cwFileNote.note.text = [] ∧ cwFileNote.note.files ≠ [] ∧
    deriveNoteText sampleEnv cwFileNote ≠ [] ∧
    (Note2TweetHandler sampleEnv cwFileNote [] true).tracker ≠
      [Normalize []] := by
  decide

/-- C10 (amended: requires the content-warning field to be empty, since
a non-empty CW replaces the empty body): an empty-text, CW-less note
with a non-empty files list skips the renote expansion, derives the
empty string, and — when public — the dedup check runs on the empty
string, so every two such payloads share the key of `""`. -/
theorem C10_empty_text_with_files_amended (env : Env) (p : NotePayload)
    (tr : TrackerState) (postOk : Bool)
    (hcw : p.note.cw = []) (ht : p.note.text = [])
    (hf : p.note.files ≠ []) :
    deriveNoteText env p = [] ∧
    (p.note.visibility = ("public").toList →
      (Note2TweetHandler env p tr postOk).tracker =
        (MarkProcessedIfNotExists [] tr).2) := by
  have hb : baseNoteText p = [] := by simp [baseNoteText, hcw, ht]
  have hd : deriveNoteText env p = [] := by simp [deriveNoteText, hb, hf]
  refine ⟨hd, ?_⟩
  intro hvis
  simp only [Note2TweetHandler, hd]
  rw [if_neg (by decide), if_neg (by simp [hvis])]
  split <;> rfl

/-- C10 witness: the image-only note derives the empty string and its
handler run marks the key of `""`. -/
theorem C10_witness :
    imageOnlyNote.note.cw = [] ∧ imageOnlyNote.note.text = [] ∧
    imageOnlyNote.note.files ≠ [] ∧
    deriveNoteText sampleEnv imageOnlyNote = [] ∧
    (Note2TweetHandler sampleEnv imageOnlyNote [] true).tracker =
      (MarkProcessedIfNotExists [] []).2 :=
  ⟨by decide, by decide, by decide,
   (C10_empty_text_with_files_amended sampleEnv imageOnlyNote [] true
     (by decide) (by decide) (by decide)).1,
   (C10_empty_text_with_files_amended sampleEnv imageOnlyNote [] true
     (by decide) (by decide) (by decide)).2 (by decide)⟩

end NoteTweet
